import Mathlib

/-!
Shallow embedding of `packages/check-http/src/runner.rs` (`collect_checks`)
from the checkmk repository, together with models of the collaborator
functions it consumes (`checking::check_*`, `http::prepare_request`,
`http::perform_request`) whose sources are not part of this package's core.

Rust `std::time::Duration` and `f64` seconds are embedded as exact rational
numbers of seconds; `std::time::Instant` readings are passed as explicit
clock values (`now_before`, `now_after`) so that the wall-clock measurement
around the transport call becomes visible in the embedding.
-/

namespace CheckHttp

/-- Monitoring state, from `checking::State` (declaration used by
`runner.rs`): the four-valued Nagios/Checkmk severity vocabulary. -/
inductive State
  | Ok
  | Warn
  | Crit
  | Unknown
deriving DecidableEq, Repr

/-- One check outcome, from `checking::CheckResult` as used by `runner.rs`:
a state plus a human-readable summary. -/
structure CheckResult where
  state : State
  summary : String
deriving DecidableEq, Repr

/-- Body-size bound configuration, from `checking::Bounds` as constructed in
`runner.rs` lines 66-70: no constraint, a lower bound, or a lower and an
upper bound. -/
inductive Bounds
  | None
  | Lower (min : Nat)
  | LowerUpper (min max : Nat)
deriving DecidableEq, Repr

/-- Time-threshold configuration, from `checking::Limits` as constructed in
`runner.rs` lines 74-80: no limit, a warning threshold, or a warning and a
critical threshold (durations, embedded as rational seconds). -/
inductive Limits
  | None
  | Warn (w : ℚ)
  | WarnCrit (w c : ℚ)
deriving DecidableEq, Repr

/-- Rust `Duration::from_secs_f64`: a floating-point number of seconds made
into a duration. Durations are embedded as exact rational seconds, so the
conversion is the identity on the embedded value. -/
def duration_from_secs_f64 (x : ℚ) : ℚ := x

/-- Modelled from the spec: the redirect policy configuration
(`cli::OnRedirect`, not under the package core) threaded from the CLI into
the status evaluator; the comment in `runner.rs` line 51 names
`sticky` and `stickyport` among its values. -/
inductive OnRedirect
  | Ok
  | Warning
  | Critical
  | Follow
  | Sticky
  | Stickyport
deriving DecidableEq, Repr

/-- The password argument group of the CLI (`args.auth_pw` in `runner.rs`
line 21): an optional plaintext password and an optional password-store
reference. -/
structure AuthPw where
  auth_pw_plain : Option String
  auth_pwstore : Option String
deriving DecidableEq, Repr

/-- The CLI argument record consumed by `collect_checks` (`cli::Cli`,
fields as read in `runner.rs`). -/
structure Cli where
  url : String
  method : String
  user_agent : Option String
  headers : List (String × String)
  timeout : ℚ
  auth_user : Option String
  auth_pw : AuthPw
  onredirect : OnRedirect
  max_redirs : Nat
  force_ip_version : Option String
  without_body : Bool
  page_size : Option (Nat × Option Nat)
  response_time_levels : Option (ℚ × Option ℚ)
  document_age_levels : Option (ℚ × Option ℚ)
deriving DecidableEq, Repr

/-- A structured HTTP response as produced by the transport adapter
(`http::perform_request`) and consumed in `runner.rs` lines 63-82:
status, protocol version, optional body (absent when the body fetch was
skipped), and headers. -/
structure Response where
  status : Nat
  version : String
  body : Option String
  headers : List (String × String)
deriving DecidableEq, Repr

/-- A transport error as consumed by `runner.rs` lines 35-58 (the
`reqwest::Error` interface used there): the three mutually consulted
classification predicates and the display message. -/
structure ReqError where
  timeout : Bool
  connect : Bool
  redirect : Bool
  msg : String
deriving DecidableEq, Repr

/-- Rust `err.is_timeout()` as consulted in `runner.rs` line 36. -/
def ReqError.is_timeout (e : ReqError) : Bool := e.timeout

/-- Rust `err.is_connect()` as consulted in `runner.rs` line 41. -/
def ReqError.is_connect (e : ReqError) : Bool := e.connect

/-- Rust `err.is_redirect()` as consulted in `runner.rs` line 46. -/
def ReqError.is_redirect (e : ReqError) : Bool := e.redirect

/-- Rust `err.to_string()` as used in `runner.rs` line 49. -/
def ReqError.to_string (e : ReqError) : String := e.msg

/-- The argument tuple handed to `http::prepare_request` in `runner.rs`
lines 14-24, after the password resolution of line 21. -/
structure PrepareArgs where
  url : String
  method : String
  user_agent : Option String
  headers : List (String × String)
  timeout : ℚ
  auth_user : Option String
  auth_pw : Option String
  onredirect : OnRedirect
  max_redirs : Nat
  force_ip_version : Option String
deriving DecidableEq, Repr

/-- The arguments `collect_checks` passes to `http::prepare_request`
(`runner.rs` lines 14-24); line 21 resolves the password as
`args.auth_pw.auth_pw_plain.or(args.auth_pw.auth_pwstore)`. -/
def prepare_args (args : Cli) : PrepareArgs :=
  { url := args.url
    method := args.method
    user_agent := args.user_agent
    headers := args.headers
    timeout := args.timeout
    auth_user := args.auth_user
    auth_pw := args.auth_pw.auth_pw_plain.or args.auth_pw.auth_pwstore
    onredirect := args.onredirect
    max_redirs := args.max_redirs
    force_ip_version := args.force_ip_version }

/-- Modelled from the spec: `checking::check_status` (not under src/).
Spec 4.4: input status code, protocol version and redirect policy; output
exactly one `CheckResult`; redirect statuses are judged by the policy,
5xx is more severe than 4xx; the exact severity table is policy data. -/
def check_status (status : Nat) (version : String) (onredirect : OnRedirect) :
    Option CheckResult :=
  some
    { state :=
        if 200 ≤ status ∧ status < 300 then State.Ok
        else if 300 ≤ status ∧ status < 400 then
          match onredirect with
          | OnRedirect.Ok => State.Ok
          | OnRedirect.Warning => State.Warn
          | _ => State.Crit
        else if 500 ≤ status then State.Crit
        else State.Warn
      summary := version ++ " " ++ toString status }

/-- Modelled from the spec: `checking::check_body` (not under src/).
Spec 4.5: always exactly one `CheckResult`; `None` bounds report the size
at OK, `Lower(min)` warns when size < min, `LowerUpper(min, max)` warns
outside [min, max]; a skipped body fetch (no-body mode) short-circuits to a
neutral OK "not checked" result instead of treating the size as 0. -/
def check_body (body : Option String) (bounds : Bounds) : Option CheckResult :=
  match body with
  | Option.none => some { state := State.Ok, summary := "Body not checked" }
  | some b =>
    let size := b.length
    match bounds with
    | Bounds.None =>
      some { state := State.Ok, summary := "Page size: " ++ toString size }
    | Bounds.Lower min =>
      if min ≤ size then
        some { state := State.Ok, summary := "Page size: " ++ toString size }
      else
        some { state := State.Warn
               summary := "Page size: " ++ toString size ++ " below " ++ toString min }
    | Bounds.LowerUpper min max =>
      if min ≤ size ∧ size ≤ max then
        some { state := State.Ok, summary := "Page size: " ++ toString size }
      else
        some { state := State.Warn
               summary := "Page size: " ++ toString size ++ " out of range" }

/-- Modelled from the spec: `checking::check_response_time` (not under
src/). Spec 4.6: always exactly one `CheckResult`; `None` is OK reporting
the measured time, `Warn(w)` is WARNING when elapsed ≥ w, `WarnCrit(w, c)`
is CRITICAL when elapsed ≥ c, else WARNING when elapsed ≥ w, else OK;
every boundary comparison is inclusive. -/
def check_response_time (elapsed : ℚ) (limits : Limits) : Option CheckResult :=
  match limits with
  | Limits.None =>
    some { state := State.Ok, summary := "Response time: " ++ toString elapsed }
  | Limits.Warn w =>
    if w ≤ elapsed then
      some { state := State.Warn, summary := "Response time: " ++ toString elapsed }
    else
      some { state := State.Ok, summary := "Response time: " ++ toString elapsed }
  | Limits.WarnCrit w c =>
    if c ≤ elapsed then
      some { state := State.Crit, summary := "Response time: " ++ toString elapsed }
    else if w ≤ elapsed then
      some { state := State.Warn, summary := "Response time: " ++ toString elapsed }
    else
      some { state := State.Ok, summary := "Response time: " ++ toString elapsed }

/-- Modelled from the spec: the document-age value derived from the
response headers by `checking::check_document_age` (not under src/);
absent or unparsable header values yield nothing. -/
def parse_age (headers : List (String × String)) : Option Nat :=
  match headers.lookup "age" with
  | Option.none => Option.none
  | some v => v.toNat?

/-- Modelled from the spec: `checking::check_document_age` (not under
src/). Spec 4.7: zero or one `CheckResult`; nothing is emitted when the
relevant header is absent or unparsable; otherwise the derived age is put
through the same ordered-threshold comparison as the response time. -/
def check_document_age (headers : List (String × String))
    (levels : Option (ℚ × Option ℚ)) : Option CheckResult :=
  match parse_age headers with
  | Option.none => Option.none
  | some age =>
    match levels with
    | Option.none =>
      some { state := State.Ok, summary := "Document age: " ++ toString age }
    | some (w, Option.none) =>
      if w ≤ (age : ℚ) then
        some { state := State.Warn, summary := "Document age: " ++ toString age }
      else
        some { state := State.Ok, summary := "Document age: " ++ toString age }
    | some (w, some c) =>
      if c ≤ (age : ℚ) then
        some { state := State.Crit, summary := "Document age: " ++ toString age }
      else if w ≤ (age : ℚ) then
        some { state := State.Warn, summary := "Document age: " ++ toString age }
      else
        some { state := State.Ok, summary := "Document age: " ++ toString age }

/-- The translation of the optional `page_size` CLI pair into `Bounds`,
exactly the match of `runner.rs` lines 66-70. -/
def bounds_of (page_size : Option (Nat × Option Nat)) : Bounds :=
  match page_size with
  | Option.none => Bounds.None
  | some (x, Option.none) => Bounds.Lower x
  | some (x, some y) => Bounds.LowerUpper x y

/-- The translation of the optional `response_time_levels` CLI pair into
`Limits`, exactly the match of `runner.rs` lines 74-80. -/
def limits_of (levels : Option (ℚ × Option ℚ)) : Limits :=
  match levels with
  | Option.none => Limits.None
  | some (x, Option.none) => Limits.Warn (duration_from_secs_f64 x)
  | some (x, some y) =>
    Limits.WarnCrit (duration_from_secs_f64 x) (duration_from_secs_f64 y)

/-- The success branch of `collect_checks` (`runner.rs` lines 62-86): the
four evaluator results in order, with empty results flattened away. -/
def success_checks (response : Response) (elapsed : ℚ) (args : Cli) :
    List CheckResult :=
  ([check_status response.status response.version args.onredirect,
    check_body response.body (bounds_of args.page_size),
    check_response_time elapsed (limits_of args.response_time_levels),
    check_document_age response.headers args.document_age_levels] :
      List (Option CheckResult)).filterMap id

/-- Embedding of `collect_checks` (`runner.rs` lines 13-87). The external
collaborators `http::prepare_request` and `http::perform_request` are
passed as function arguments over an arbitrary request type `R`; the two
`Instant` readings taken in lines 32 and 60 are passed as the clock values
`now_before` and `now_after`, so `elapsed = now_after - now_before`. -/
def collect_checks {R : Type} (prepare : PrepareArgs → Option R)
    (perform : R → Bool → Except ReqError Response)
    (now_before now_after : ℚ) (args : Cli) : List CheckResult :=
  match prepare (prepare_args args) with
  | Option.none =>
    [{ state := State.Unknown, summary := "Error building the request" }]
  | some request =>
    match perform request args.without_body with
    | Except.error err =>
      if err.is_timeout then
        [{ state := State.Crit, summary := "timeout" }]
      else if err.is_connect then
        [{ state := State.Crit, summary := "Failed to connect" }]
      else if err.is_redirect then
        [{ state := State.Crit, summary := err.to_string }]
      else
        [{ state := State.Unknown, summary := "Error while sending request" }]
    | Except.ok response =>
      success_checks response (now_after - now_before) args

/-- A concrete CLI argument record for evaluating the definitions. -/
def sample_args : Cli :=
  { url := "http://example.com"
    method := "GET"
    user_agent := Option.none
    headers := []
    timeout := 10
    auth_user := some "user"
    auth_pw := { auth_pw_plain := some "plain", auth_pwstore := some "store" }
    onredirect := OnRedirect.Follow
    max_redirs := 15
    force_ip_version := Option.none
    without_body := false
    page_size := Option.none
    response_time_levels := Option.none
    document_age_levels := Option.none }

/-- A concrete successful response for evaluating the definitions. -/
def sample_response : Response :=
  { status := 200
    version := "HTTP/1.1"
    body := some "hello"
    headers := [] }

/-- A concrete connect-failure transport error. -/
def sample_connect_error : ReqError :=
  { timeout := false, connect := true, redirect := false, msg := "" }

/-- Flattening a four-element list of optional results is the concatenation
of the optional results viewed as lists. -/
theorem filterMap_id_four (o1 o2 o3 o4 : Option CheckResult) :
    ([o1, o2, o3, o4] : List (Option CheckResult)).filterMap id =
      o1.toList ++ o2.toList ++ o3.toList ++ o4.toList := by
  cases o1 <;> cases o2 <;> cases o3 <;> cases o4 <;> rfl

/-- The status evaluator always produces a result. -/
theorem check_status_isSome (s : Nat) (v : String) (p : OnRedirect) :
    (check_status s v p).isSome = true := rfl

/-- The body evaluator always produces a result. -/
theorem check_body_isSome (b : Option String) (bd : Bounds) :
    (check_body b bd).isSome = true := by
  cases b with
  | none => rfl
  | some s =>
    cases bd with
    | None => rfl
    | Lower min => simp only [check_body]; split <;> rfl
    | LowerUpper min max => simp only [check_body]; split <;> rfl

/-- The response-time evaluator always produces a result. -/
theorem check_response_time_isSome (e : ℚ) (l : Limits) :
    (check_response_time e l).isSome = true := by
  cases l with
  | None => rfl
  | Warn w => simp only [check_response_time]; split <;> rfl
  | WarnCrit w c =>
    simp only [check_response_time]; split
    · rfl
    · split <;> rfl

/-- On a successful transport outcome, `collect_checks` returns the
success-branch results with the elapsed clock difference. -/
theorem collect_checks_ok {R : Type} (prepare : PrepareArgs → Option R)
    (perform : R → Bool → Except ReqError Response)
    (tb ta : ℚ) (args : Cli) (req : R) (resp : Response)
    (h1 : prepare (prepare_args args) = some req)
    (h2 : perform req args.without_body = Except.ok resp) :
    collect_checks prepare perform tb ta args = success_checks resp (ta - tb) args := by
  simp only [collect_checks, h1, h2]

/-- The success-branch results, written as the concatenation of the four
optional evaluator results in order. -/
theorem success_checks_eq (resp : Response) (e : ℚ) (args : Cli) :
    success_checks resp e args =
      (check_status resp.status resp.version args.onredirect).toList ++
      (check_body resp.body (bounds_of args.page_size)).toList ++
      (check_response_time e (limits_of args.response_time_levels)).toList ++
      (check_document_age resp.headers args.document_age_levels).toList := by
  simp only [success_checks]
  exact filterMap_id_four _ _ _ _

/-- C1: on every transport failure, `collect_checks` returns exactly one
`CheckResult` (a one-element list, so no threshold evaluator output can
appear), classified by the fixed priority chain Timeout, ConnectFailure,
RedirectPolicyViolation, Other with first match winning: Timeout maps to
CRITICAL/"timeout", ConnectFailure to CRITICAL/"Failed to connect",
RedirectPolicyViolation to CRITICAL with the adapter's message verbatim,
and anything else to UNKNOWN/"Error while sending request". -/
theorem transport_failure_mapping {R : Type} (prepare : PrepareArgs → Option R)
    (perform : R → Bool → Except ReqError Response)
    (tb ta : ℚ) (args : Cli) (req : R) (err : ReqError)
    (h1 : prepare (prepare_args args) = some req)
    (h2 : perform req args.without_body = Except.error err) :
    collect_checks prepare perform tb ta args =
      [if err.is_timeout then { state := State.Crit, summary := "timeout" }
       else if err.is_connect then
         { state := State.Crit, summary := "Failed to connect" }
       else if err.is_redirect then
         { state := State.Crit, summary := err.to_string }
       else { state := State.Unknown, summary := "Error while sending request" }] := by
  simp only [collect_checks, h1, h2]
  split_ifs <;> rfl

/-- C1 witness: a concrete connect failure yields the single result
CRITICAL/"Failed to connect". -/
theorem transport_failure_mapping_witness :
    collect_checks (fun _ => some ()) (fun _ _ => Except.error sample_connect_error)
        0 0 sample_args =
      [{ state := State.Crit, summary := "Failed to connect" }] := by
  have h := transport_failure_mapping (fun _ => some ())
    (fun _ _ => Except.error sample_connect_error) 0 0 sample_args ()
    sample_connect_error rfl rfl
  simpa [sample_connect_error, ReqError.is_timeout, ReqError.is_connect] using h

/-- C2: whenever request construction fails, `collect_checks` returns the
one-element sequence UNKNOWN/"Error building the request"; the result is
stated for an arbitrary `perform` collaborator, so no network activity can
influence it, and no other check appears. -/
theorem build_failure_short_circuit {R : Type} (prepare : PrepareArgs → Option R)
    (perform : R → Bool → Except ReqError Response)
    (tb ta : ℚ) (args : Cli)
    (h1 : prepare (prepare_args args) = Option.none) :
    collect_checks prepare perform tb ta args =
      [{ state := State.Unknown, summary := "Error building the request" }] := by
  simp only [collect_checks, h1]

/-- C2 witness: a concretely failing request build yields the single
UNKNOWN result. -/
theorem build_failure_short_circuit_witness :
    collect_checks (fun _ => (Option.none : Option Unit))
        (fun _ _ => Except.ok sample_response) 0 0 sample_args =
      [{ state := State.Unknown, summary := "Error building the request" }] :=
  build_failure_short_circuit (fun _ => (Option.none : Option Unit))
    (fun _ _ => Except.ok sample_response) 0 0 sample_args rfl

/-- C3: on every successful response, `collect_checks` returns the results
of the four evaluators, in the order status, body size, response time,
document age, concatenated with any evaluator that produced nothing
dropped from the sequence. -/
theorem success_concatenation {R : Type} (prepare : PrepareArgs → Option R)
    (perform : R → Bool → Except ReqError Response)
    (tb ta : ℚ) (args : Cli) (req : R) (resp : Response)
    (h1 : prepare (prepare_args args) = some req)
    (h2 : perform req args.without_body = Except.ok resp) :
    collect_checks prepare perform tb ta args =
      (check_status resp.status resp.version args.onredirect).toList ++
      (check_body resp.body (bounds_of args.page_size)).toList ++
      (check_response_time (ta - tb) (limits_of args.response_time_levels)).toList ++
      (check_document_age resp.headers args.document_age_levels).toList := by
  rw [collect_checks_ok prepare perform tb ta args req resp h1 h2]
  exact success_checks_eq resp (ta - tb) args

/-- C3 witness: the concatenation shape at a concrete successful call. -/
theorem success_concatenation_witness :
    collect_checks (fun _ => some ()) (fun _ _ => Except.ok sample_response)
        0 1 sample_args =
      (check_status sample_response.status sample_response.version
          sample_args.onredirect).toList ++
      (check_body sample_response.body (bounds_of sample_args.page_size)).toList ++
      (check_response_time (1 - 0)
          (limits_of sample_args.response_time_levels)).toList ++
      (check_document_age sample_response.headers
          sample_args.document_age_levels).toList :=
  success_concatenation (fun _ => some ()) (fun _ _ => Except.ok sample_response)
    0 1 sample_args () sample_response rfl rfl

/-- C4: the status, body-size and response-time evaluators each always
produce a result, the document-age evaluator produces zero or one (it
returns an optional result), so on every successful response the sequence
returned by `collect_checks` has length 3 or 4 and never fewer than 3. -/
theorem evaluator_arity {R : Type} (prepare : PrepareArgs → Option R)
    (perform : R → Bool → Except ReqError Response)
    (tb ta : ℚ) (args : Cli) (req : R) (resp : Response)
    (s : Nat) (v : String) (p : OnRedirect) (b : Option String) (bd : Bounds)
    (e : ℚ) (l : Limits)
    (h1 : prepare (prepare_args args) = some req)
    (h2 : perform req args.without_body = Except.ok resp) :
    (check_status s v p).isSome = true ∧
    (check_body b bd).isSome = true ∧
    (check_response_time e l).isSome = true ∧
    ((collect_checks prepare perform tb ta args).length = 3 ∨
      (collect_checks prepare perform tb ta args).length = 4) := by
  refine ⟨check_status_isSome s v p, check_body_isSome b bd,
    check_response_time_isSome e l, ?_⟩
  rw [collect_checks_ok prepare perform tb ta args req resp h1 h2,
    success_checks_eq resp (ta - tb) args]
  obtain ⟨r1, e1⟩ := Option.isSome_iff_exists.mp
    (check_status_isSome resp.status resp.version args.onredirect)
  obtain ⟨r2, e2⟩ := Option.isSome_iff_exists.mp
    (check_body_isSome resp.body (bounds_of args.page_size))
  obtain ⟨r3, e3⟩ := Option.isSome_iff_exists.mp
    (check_response_time_isSome (ta - tb) (limits_of args.response_time_levels))
  rw [e1, e2, e3]
  cases check_document_age resp.headers args.document_age_levels with
  | none => left; rfl
  | some r4 => right; rfl

/-- C4 witness: at a concrete successful call the evaluators are all
populated and the sequence has length 3 (the age header is absent). -/
theorem evaluator_arity_witness :
    (check_status 200 "HTTP/1.1" OnRedirect.Follow).isSome = true ∧
    (check_body (some "hello") Bounds.None).isSome = true ∧
    (check_response_time 1 Limits.None).isSome = true ∧
    ((collect_checks (fun _ => some ()) (fun _ _ => Except.ok sample_response)
        0 1 sample_args).length = 3 ∨
      (collect_checks (fun _ => some ()) (fun _ _ => Except.ok sample_response)
        0 1 sample_args).length = 4) :=
  evaluator_arity (fun _ => some ()) (fun _ _ => Except.ok sample_response)
    0 1 sample_args () sample_response 200 "HTTP/1.1" OnRedirect.Follow
    (some "hello") Bounds.None 1 Limits.None rfl rfl

/-- C5: the response-time evaluation obeys the three-way rule: no limits
is OK reporting the measured time; a single warning limit is WARNING when
elapsed ≥ w and OK otherwise; a warning/critical pair is CRITICAL when
elapsed ≥ c, else WARNING when elapsed ≥ w, else OK, with every boundary
comparison inclusive. -/
theorem response_time_rule (e w c : ℚ) :
    check_response_time e Limits.None =
      some { state := State.Ok, summary := "Response time: " ++ toString e } ∧
    (check_response_time e (Limits.Warn w)).map CheckResult.state =
      some (if w ≤ e then State.Warn else State.Ok) ∧
    (check_response_time e (Limits.WarnCrit w c)).map CheckResult.state =
      some (if c ≤ e then State.Crit
            else if w ≤ e then State.Warn else State.Ok) := by
  refine ⟨rfl, ?_, ?_⟩
  · simp only [check_response_time]
    split <;> rfl
  · simp only [check_response_time]
    split
    · rfl
    · split <;> rfl

/-- C6: the optional CLI pairs translate into the three-valued bound types
exactly as in the source: an absent page size gives `Bounds.None`, a bare
minimum gives `Bounds.Lower`, a pair gives `Bounds.LowerUpper`; an absent
response-time level gives `Limits.None`, a bare warning value gives
`Limits.Warn`, a pair gives `Limits.WarnCrit`, the numeric values read as
durations in seconds (`duration_from_secs_f64` is the identity on the
rational-seconds embedding). -/
theorem config_translation (x y : Nat) (w c : ℚ) :
    bounds_of Option.none = Bounds.None ∧
    bounds_of (some (x, Option.none)) = Bounds.Lower x ∧
    bounds_of (some (x, some y)) = Bounds.LowerUpper x y ∧
    limits_of Option.none = Limits.None ∧
    limits_of (some (w, Option.none)) = Limits.Warn (duration_from_secs_f64 w) ∧
    limits_of (some (w, some c)) =
      Limits.WarnCrit (duration_from_secs_f64 w) (duration_from_secs_f64 c) ∧
    duration_from_secs_f64 w = w :=
  ⟨rfl, rfl, rfl, rfl, rfl, rfl, rfl⟩

/-- C7: a skipped body fetch (no-body mode, body absent) short-circuits the
body evaluator to a neutral OK "not checked" result for every configured
bound, and an empty body under `Bounds.Lower 0` evaluates to OK. -/
theorem body_skip_neutral (bd : Bounds) :
    check_body Option.none bd =
      some { state := State.Ok, summary := "Body not checked" } ∧
    (check_body (some "") (Bounds.Lower 0)).map CheckResult.state =
      some State.Ok :=
  ⟨rfl, rfl⟩

/-- C8: the elapsed duration handed to the response-time evaluator is the
difference of the clock readings taken immediately before and immediately
after the transport call (the two `Instant` readings of the source), and
on a transport failure the outcome is independent of both readings, so
elapsed time is only used on the success path. -/
theorem elapsed_clock_usage {R : Type} (prepare : PrepareArgs → Option R)
    (perform : R → Bool → Except ReqError Response)
    (args : Cli) (req : R) (resp : Response) (err : ReqError)
    (tb ta tb2 ta2 : ℚ)
    (h1 : prepare (prepare_args args) = some req) :
    (perform req args.without_body = Except.ok resp →
      collect_checks prepare perform tb ta args =
        success_checks resp (ta - tb) args) ∧
    (perform req args.without_body = Except.error err →
      collect_checks prepare perform tb ta args =
        collect_checks prepare perform tb2 ta2 args) := by
  constructor
  · intro h2
    exact collect_checks_ok prepare perform tb ta args req resp h1 h2
  · intro h2
    simp only [collect_checks, h1, h2]

/-- C8 witness: with clock readings 2 and 5 around a concrete successful
call, the evaluators receive the elapsed time 5 - 2. -/
theorem elapsed_clock_usage_witness :
    collect_checks (fun _ => some ()) (fun _ _ => Except.ok sample_response)
        2 5 sample_args =
      success_checks sample_response (5 - 2) sample_args :=
  (elapsed_clock_usage (fun _ => some ()) (fun _ _ => Except.ok sample_response)
    sample_args () sample_response sample_connect_error 2 5 0 0 rfl).1 rfl

/-- C9: the post-transport classification of a (response, elapsed,
configuration) tuple is a pure function: two evaluations of the same tuple
yield identical result sequences. -/
theorem classification_deterministic (resp : Response) (e : ℚ) (args : Cli)
    (r1 r2 : List CheckResult)
    (h1 : r1 = success_checks resp e args)
    (h2 : r2 = success_checks resp e args) : r1 = r2 :=
  h1.trans h2.symm

/-- C9 witness: two evaluations at a concrete tuple agree. -/
theorem classification_deterministic_witness :
    success_checks sample_response 1 sample_args =
      success_checks sample_response 1 sample_args :=
  classification_deterministic sample_response 1 sample_args _ _ rfl rfl

/-- C10: the password handed to request construction is the plaintext one
whenever it is supplied, even when a secret-store password is also
supplied; the secret-store value is passed exactly when the plaintext one
is absent. -/
theorem plaintext_precedence (args : Cli) (p : String) :
    (args.auth_pw.auth_pw_plain = some p → (prepare_args args).auth_pw = some p) ∧
    (args.auth_pw.auth_pw_plain = Option.none →
      (prepare_args args).auth_pw = args.auth_pw.auth_pwstore) := by
  constructor
  · intro h
    simp only [prepare_args, h, Option.or_some]
  · intro h
    simp only [prepare_args, h, Option.none_or]

/-- C10 witness: with both a plaintext and a store password supplied, the
plaintext one is passed to request construction. -/
theorem plaintext_precedence_witness :
    (prepare_args sample_args).auth_pw = some "plain" :=
  (plaintext_precedence sample_args "plain").1 rfl

end CheckHttp
